import Mathlib

/-!
Shallow embedding of the pvfll_002_screen kiosk controller.

The Python sources embedded here are `qr_token.py`, `api.py`,
`pusher_events.py`, `boot.py` and the orchestration pieces of `main.py`.
Python's `hmac`/`hashlib` standard-library calls are modelled by the
standard FIPS 180-4 SHA-256 and RFC 2104 HMAC algorithms, which is what
those libraries compute.  Machine words are `Nat` reduced mod 2^32.
-/

set_option maxRecDepth 100000

namespace PVFLL

/-! ### SHA-256 (model of `hashlib.sha256`) -/

/-- Reduce to a 32-bit word. -/
def w32 (n : Nat) : Nat := n % 4294967296

/-- 32-bit right rotation. -/
def rotr32 (x n : Nat) : Nat := w32 ((x >>> n) ||| (x <<< (32 - n)))

def bigSigma0 (x : Nat) : Nat := rotr32 x 2 ^^^ rotr32 x 13 ^^^ rotr32 x 22

def bigSigma1 (x : Nat) : Nat := rotr32 x 6 ^^^ rotr32 x 11 ^^^ rotr32 x 25

def smallSigma0 (x : Nat) : Nat := rotr32 x 7 ^^^ rotr32 x 18 ^^^ (x >>> 3)

def smallSigma1 (x : Nat) : Nat := rotr32 x 17 ^^^ rotr32 x 19 ^^^ (x >>> 10)

/-- SHA-256 choice function (¬x taken within 32 bits). -/
def chF (x y z : Nat) : Nat := (x &&& y) ^^^ ((w32 x ^^^ 4294967295) &&& z)

/-- SHA-256 majority function. -/
def majF (x y z : Nat) : Nat := (x &&& y) ^^^ (x &&& z) ^^^ (y &&& z)

/-- The 64 SHA-256 round constants (fractional parts of cube roots of the
first 64 primes). -/
def K256 : List Nat :=
  [1116352408, 1899447441, 3049323471, 3921009573, 961987163, 1508970993,
   2453635748, 2870763221, 3624381080, 310598401, 607225278, 1426881987,
   1925078388, 2162078206, 2614888103, 3248222580, 3835390401, 4022224774,
   264347078, 604807628, 770255983, 1249150122, 1555081692, 1996064986,
   2554220882, 2821834349, 2952996808, 3210313671, 3336571891, 3584528711,
   113926993, 338241895, 666307205, 773529912, 1294757372, 1396182291,
   1695183700, 1986661051, 2177026350, 2456956037, 2730485921, 2820302411,
   3259730800, 3345764771, 3516065817, 3600352804, 4094571909, 275423344,
   430227734, 506948616, 659060556, 883997877, 958139571, 1322822218,
   1537002063, 1747873779, 1955562222, 2024104815, 2227730452, 2361852424,
   2428436474, 2756734187, 3204031479, 3329325298]

/-- Big-endian byte expansion: `bytesBE n v` is the `n`-byte big-endian
encoding of `v` (mod 2^(8n)). -/
def bytesBE : Nat → Nat → List Nat
  | 0, _ => []
  | n + 1, v => bytesBE n (v / 256) ++ [v % 256]

/-- SHA-256 padding: append 0x80, zero-pad to 56 mod 64, then the 64-bit
big-endian bit length. -/
def sha256Pad (msg : List Nat) : List Nat :=
  msg ++ [128] ++ List.replicate ((119 - msg.length % 64) % 64) 0
      ++ bytesBE 8 (8 * msg.length)

/-- Split a byte list into 64-byte blocks (structural recursion on a fuel
bound: each step consumes at least one element, so `l.length` fuel
suffices). -/
def toBlocksGo : Nat → List Nat → List (List Nat)
  | 0, _ => []
  | _ + 1, [] => []
  | fuel + 1, b :: rest => ((b :: rest).take 64) :: toBlocksGo fuel ((b :: rest).drop 64)

/-- Split a byte list into 64-byte blocks. -/
def toBlocks (l : List Nat) : List (List Nat) := toBlocksGo l.length l

/-- Group bytes into 32-bit big-endian words. -/
def wordsOfBlock : List Nat → List Nat
  | b0 :: b1 :: b2 :: b3 :: rest =>
      (b0 * 16777216 + b1 * 65536 + b2 * 256 + b3) :: wordsOfBlock rest
  | _ => []

/-- Extend a 16-word schedule by `n` further words. -/
def extendSchedule : Nat → List Nat → List Nat
  | 0, ws => ws
  | n + 1, ws =>
      let i := ws.length
      extendSchedule n (ws ++
        [w32 (smallSigma1 (ws.getD (i - 2) 0) + ws.getD (i - 7) 0 +
              smallSigma0 (ws.getD (i - 15) 0) + ws.getD (i - 16) 0)])

/-- Full 64-word message schedule of one block. -/
def schedule (block : List Nat) : List Nat := extendSchedule 48 (wordsOfBlock block)

/-- The eight 32-bit working variables of SHA-256. -/
structure H8 where
  a : Nat
  b : Nat
  c : Nat
  d : Nat
  e : Nat
  f : Nat
  g : Nat
  h : Nat
deriving DecidableEq, Repr

/-- SHA-256 initial hash value. -/
def H0 : H8 :=
  ⟨1779033703, 3144134277, 1013904242, 2773480762,
   1359893119, 2600822924, 528734635, 1541459225⟩

/-- One SHA-256 round: `kw` is the pair (round constant, schedule word). -/
def roundStep (st : H8) (kw : Nat × Nat) : H8 :=
  let t1 := w32 (st.h + bigSigma1 st.e + chF st.e st.f st.g + kw.1 + kw.2)
  let t2 := w32 (bigSigma0 st.a + majF st.a st.b st.c)
  ⟨w32 (t1 + t2), st.a, st.b, st.c, w32 (st.d + t1), st.e, st.f, st.g⟩

/-- Compress one 64-byte block into the running hash state. -/
def compressBlock (st : H8) (block : List Nat) : H8 :=
  let r := (K256.zip (schedule block)).foldl roundStep st
  ⟨w32 (st.a + r.a), w32 (st.b + r.b), w32 (st.c + r.c), w32 (st.d + r.d),
   w32 (st.e + r.e), w32 (st.f + r.f), w32 (st.g + r.g), w32 (st.h + r.h)⟩

/-- SHA-256 state after absorbing a whole (byte-list) message. -/
def sha256Words (msg : List Nat) : H8 :=
  (toBlocks (sha256Pad msg)).foldl compressBlock H0

/-- SHA-256 digest as a list of 32 bytes. -/
def sha256 (msg : List Nat) : List Nat :=
  let st := sha256Words msg
  bytesBE 4 st.a ++ bytesBE 4 st.b ++ bytesBE 4 st.c ++ bytesBE 4 st.d ++
  bytesBE 4 st.e ++ bytesBE 4 st.f ++ bytesBE 4 st.g ++ bytesBE 4 st.h

/-! ### HMAC-SHA256 (model of `hmac.new(key, msg, hashlib.sha256)`) -/

/-- RFC 2104 HMAC over SHA-256 (block size 64); digest as 32 bytes. -/
def hmacSha256 (key msg : List Nat) : List Nat :=
  let k0 := if 64 < key.length then sha256 key else key
  let kp := k0 ++ List.replicate (64 - k0.length) 0
  sha256 ((kp.map (fun b => b ^^^ 92)) ++ sha256 ((kp.map (fun b => b ^^^ 54)) ++ msg))

/-! ### Lowercase hex digests (model of `.hexdigest()`) -/

/-- Lowercase hex digit for a nibble value. -/
def hexChar (n : Nat) : Char := Char.ofNat (if n < 10 then 48 + n else 87 + n)

/-- Two lowercase hex characters of one byte. -/
def byteHex (b : Nat) : List Char := [hexChar (b / 16 % 16), hexChar (b % 16)]

/-- Lowercase hex string of a byte list. -/
def hexOfBytes (bytes : List Nat) : String := String.mk (bytes.flatMap byteHex)

/-! ### UTF-8 (model of Python `str.encode()`) -/

/-- UTF-8 encoding of one code point, as byte values. -/
def utf8EncodeCharNat (c : Char) : List Nat :=
  let n := c.toNat
  if n < 128 then [n]
  else if n < 2048 then [192 + n / 64, 128 + n % 64]
  else if n < 65536 then [224 + n / 4096, 128 + n / 64 % 64, 128 + n % 64]
  else [240 + n / 262144, 128 + n / 4096 % 64, 128 + n / 64 % 64, 128 + n % 64]

/-- UTF-8 bytes of a string. -/
def utf8Bytes (s : String) : List Nat := s.data.flatMap utf8EncodeCharNat

/-! ### `qr_token.py`

Configuration (`DEVICE_ID`, `QR_SECRET`, `QR_INTERVAL_SECONDS`) is read from
the environment at module load; it is embedded as an explicit record. -/

structure QrConfig where
  deviceId : String
  secret : String
  interval : Int
deriving DecidableEq, Repr

/-- Token for a given time slot: HMAC-SHA256 of `deviceId ++ str(slot)`
keyed by the secret, as a lowercase hex digest. -/
def tokenForSlot (cfg : QrConfig) (slot : Int) : String :=
  hexOfBytes (hmacSha256 (utf8Bytes cfg.secret) (utf8Bytes (cfg.deviceId ++ toString slot)))

/-- `generate_token(timestamp_seconds)` from `qr_token.py`: Python `//` on
ints is floor division, embedded as `Int.fdiv`. -/
def generate_token (cfg : QrConfig) (timestamp_seconds : Int) : String :=
  let time_slot := Int.fdiv timestamp_seconds cfg.interval
  let message := cfg.deviceId ++ toString time_slot
  hexOfBytes (hmacSha256 (utf8Bytes cfg.secret) (utf8Bytes message))

/-- The module-level `BASE_URL` constant of `qr_token.py`. -/
def BASE_URL : String := "https://htmlpg.andrew-boylan.com"

/-- `get_qr_url(timestamp_seconds)` from `qr_token.py`. -/
def get_qr_url (cfg : QrConfig) (timestamp_seconds : Int) : String :=
  BASE_URL ++ "/v/" ++ cfg.deviceId ++ "/" ++ generate_token cfg timestamp_seconds

/-- Python `int()` applied to a float/rational: truncation toward zero. -/
def pyInt (q : ℚ) : Int := if 0 ≤ q then ⌊q⌋ else ⌈q⌉

/-- `seconds_until_next_slot()` from `qr_token.py`.  The source reads
`now = time.time()` (a float, embedded as an exact rational argument) and
returns `((int(now) // I) + 1) * I - now`. -/
def seconds_until_next_slot (cfg : QrConfig) (now : ℚ) : ℚ :=
  let current_slot_end := (Int.fdiv (pyInt now) cfg.interval + 1) * cfg.interval
  (current_slot_end : ℚ) - now

/-! ### `api.py`

The HTTP transport is embedded as a function `net : ℕ → Except String RawResponse`
giving the outcome of each successive attempt (`.error e` models a raised
`requests.exceptions.RequestException` with message `e`).  `get_file_type`
from `util.py` wraps the external `mimetypes` table; it is passed in as an
abstract `fileType : String → String`. -/

/-- The JSON body of a successful `GET /boxes/{n}/files`, with possibly
missing fields. -/
structure RawResponse where
  empty : Option Bool
  name : Option String
  error : Option String
deriving DecidableEq, Repr

/-- The dictionary `fetch_box_status` hands back to its callers. -/
structure BoxStatus where
  empty : Bool
  name : Option String := none
  ftype : Option String := none
  error : Option String := none
deriving DecidableEq, Repr

/-- The success path of `fetch_box_status`: `data.setdefault("empty", True)`
and, when the box is non-empty and has a (truthy) name, the derived
`data["type"]`. -/
def processResponse (fileType : String → String) (d : RawResponse) : BoxStatus :=
  let e := d.empty.getD true
  let ft := match d.name with
    | some nm => if e = false ∧ nm ≠ "" then some (fileType nm) else none
    | none => none
  { empty := e, name := d.name, ftype := ft, error := d.error }

/-- Observable side events of `fetch_box_status`: one entry per issued HTTP
attempt and per `time.sleep(delay)`. -/
inductive FetchEv where
  | attempt (i : Nat)
  | sleep (d : Nat)
deriving DecidableEq, Repr

/-- The `for attempt in range(retries)` loop of `fetch_box_status`, recursing
on the attempts left.  `i` is the current value of `attempt`.  Falling out of
the loop (zero attempts left) is Python's implicit `return None`. -/
def fetchAttempts (net : Nat → Except String RawResponse) (fileType : String → String)
    (delay : Nat) : Nat → Nat → Option BoxStatus × List FetchEv
  | _, 0 => (none, [])
  | i, left + 1 =>
    match net i with
    | .ok d => (some (processResponse fileType d), [.attempt i])
    | .error e =>
      if left = 0 then
        (some { empty := true, error := some e }, [.attempt i])
      else
        let rest := fetchAttempts net fileType delay (i + 1) left
        (rest.1, .attempt i :: .sleep delay :: rest.2)

/-- `fetch_box_status(box_number, retries, delay)` from `api.py`, returning
the result together with the trace of attempts and sleeps. -/
def fetch_box_status (net : Nat → Except String RawResponse) (fileType : String → String)
    (retries delay : Nat) : Option BoxStatus × List FetchEv :=
  fetchAttempts net fileType delay 0 retries

/-- Recognizer for attempt events. -/
def isAttemptEv : FetchEv → Bool
  | .attempt _ => true
  | .sleep _ => false

/-- The exact event trace of `n` consecutive failing attempts starting at
attempt index `i`: attempts separated by fixed `delay` sleeps. -/
def failTrace (delay : Nat) : Nat → Nat → List FetchEv
  | _, 0 => []
  | i, 1 => [.attempt i]
  | i, n + 2 => .attempt i :: .sleep delay :: failTrace delay (i + 1) (n + 1)

/-- Python dict of box number to status, in insertion order. -/
abbrev BoxMap := List (Nat × BoxStatus)

/-- Dict read: first binding of the key, if any. -/
def dictLookup : BoxMap → Nat → Option BoxStatus
  | [], _ => none
  | (k', v) :: rest, k => if k' = k then some v else dictLookup rest k

/-- Dict assignment `m[k] = v`: replace the existing binding in place, else
append (Python dicts preserve insertion order). -/
def dictSet : BoxMap → Nat → BoxStatus → BoxMap
  | [], k, v => [(k, v)]
  | (k', v') :: rest, k, v =>
      if k' = k then (k, v) :: rest else (k', v') :: dictSet rest k v

/-- `fetch_all_boxes()` from `api.py`, given the per-box fetch outcome (by
`fetch_box_status`'s contract each entry is a plain status value). -/
def fetch_all_boxes (fetch : Nat → BoxStatus) : BoxMap :=
  [1, 2, 3, 4].map (fun n => (n, fetch n))

/-! ### `pusher_events.py` -/

/-- A Python value that can sit in the `boxNumber` field of an event
payload. -/
inductive PyVal where
  | pint (n : Int)
  | pstr (s : String)
deriving DecidableEq, Repr

/-- Python truthiness of such a value: `0` and `""` are falsy. -/
def truthy : PyVal → Bool
  | .pint n => n ≠ 0
  | .pstr s => s ≠ ""

/-- Python `str()` of such a value. -/
def pyStrOf : PyVal → String
  | .pint n => toString n
  | .pstr s => s

/-- Python `.strip()`: drop whitespace from both ends. -/
def pyStrip (s : String) : String :=
  String.mk (((s.data.dropWhile Char.isWhitespace).reverse.dropWhile Char.isWhitespace).reverse)

/-- Helper for `int(s)`: value of a nonempty all-digit string. -/
def digitsVal : List Char → Option Nat
  | [] => none
  | cs =>
      if cs.all Char.isDigit then
        some (cs.foldl (fun a c => a * 10 + (c.toNat - 48)) 0)
      else none

/-- Python `int(s)` on an already-stripped string: optional sign followed by
decimal digits; `none` models a raised `ValueError`. -/
def pyIntOfString (s : String) : Option Int :=
  match s.data with
  | '-' :: rest => (digitsVal rest).map (fun n => -(n : Int))
  | '+' :: rest => (digitsVal rest).map (fun n => (n : Int))
  | cs => (digitsVal cs).map (fun n => (n : Int))

/-- An incoming pusher event payload, after the `json.loads` step:
`malformed` is a string payload that fails to parse (the raised exception is
caught and logged); `obj` is a parsed dict carrying its `boxNumber` field
(`none` when the field is absent, i.e. `data.get("boxNumber")` is `None`). -/
inductive EventPayload where
  | malformed
  | obj (boxNumber : Option PyVal)
deriving DecidableEq, Repr

/-- The `PusherListener` object state; the callback slot is generic in the
callback value `α`.  `pusher`/`channel` stand for the `pysher` handles. -/
structure PusherListener (α : Type) where
  on_box_update : Option α
  pusher : Option Unit
  channel : Option Unit
  connected : Bool

/-- `PusherListener.__init__(on_box_update_callback=None)`. -/
def PusherListener.init (α : Type) (on_box_update_callback : Option α) : PusherListener α :=
  { on_box_update := on_box_update_callback, pusher := none, channel := none,
    connected := false }

/-- Module-level configuration and transport environment of
`pusher_events.py`: `available` is `PUSHER_AVAILABLE` (the `pysher` import
succeeded), `appKey` is `PUSHER_APP_KEY` (`none` when unset), and
`transportOk` says whether the `pysher` connect/subscribe calls raise. -/
structure PusherEnv where
  available : Bool
  appKey : Option String
  transportOk : Bool
deriving DecidableEq, Repr

/-- Python truthiness of an optional string (`None` and `""` are falsy). -/
def pyTruthyStrOpt : Option String → Bool
  | none => false
  | some s => s ≠ ""

/-- `PusherListener.connect()`: returns `False` at once when `pysher` is
unavailable or no app key is configured (no transport action is taken and
the listener is unchanged); otherwise performs the transport setup, which
either succeeds (`True`) or raises, is caught, and yields `False`. -/
def PusherListener.connect (l : PusherListener α) (env : PusherEnv) :
    Bool × PusherListener α :=
  if ¬ env.available ∨ ¬ pyTruthyStrOpt env.appKey then
    (false, l)
  else if env.transportOk then
    (true, { l with pusher := some (), channel := some () })
  else
    (false, l)

/-- `PusherListener._on_file_event(data)`: returns the callback invocation it
performs, if any — `some (cb, n)` means the registered callback `cb` is
called with integer `n`.  Any exception along the way (JSON parse failure,
`int()` on a non-numeric string) is caught, so those paths return `none`. -/
def PusherListener.on_file_event (l : PusherListener α) (data : EventPayload) :
    Option (α × Int) :=
  match data with
  | .malformed => none
  | .obj bn =>
    match bn with
    | none => none
    | some box_number =>
      if truthy box_number then
        match l.on_box_update with
        | none => none
        | some cb =>
          match pyIntOfString (pyStrip (pyStrOf box_number)) with
          | some n => some (cb, n)
          | none => none
      else none

/-! ### `boot.py` and `main.py` -/

/-- Environment of one run of `boot_sequence()`: whether display init
raises, the pusher transport environment, and the per-box fetch outcomes.
The Wi-Fi wait loop of step 2 blocks until connectivity and is embedded in
its terminating case (it produces no observable result). -/
structure BootEnv where
  displayOk : Bool
  pusher : PusherEnv
  fetch : Nat → BoxStatus

/-- `boot_sequence()` from `boot.py`: `none` is the `(None, None)` failure
return.  `fetch_all_boxes` never raises (failures are data per
`fetch_box_status`'s contract), so step 4 succeeds. -/
def boot_sequence (env : BootEnv) : Option (BoxMap × PusherListener Unit) :=
  if ¬ env.displayOk then none
  else
    let pusher_listener := PusherListener.init Unit none
    let (ok, l) := pusher_listener.connect env.pusher
    if ok then some (fetch_all_boxes env.fetch, l)
    else none

/-- What `main()` does with the boot result: a `none` initial snapshot sends
it into the idle `while running: time.sleep(1)` halt; otherwise it enters
the running tick loop. -/
inductive MainPhase where
  | haltedIdle
  | running
deriving DecidableEq, Repr

/-- The boot-outcome branch at the top of `main()`. -/
def main_boot_outcome (env : BootEnv) : MainPhase :=
  match boot_sequence env with
  | none => .haltedIdle
  | some _ => .running

/-- Observable actions of the orchestration loop in `main.py`. -/
inductive MainAction where
  | fetchAll
  | fetchBox (n : Nat)
  | logChanged
  | render
  | connectAttempt (result : Bool)
  | reportHealth (connected : Bool)
deriving DecidableEq, Repr

/-- `sync_poll()` from `main.py`: fetch all boxes, replace the snapshot and
log only when the fresh data differs, and refresh the display in every
case.  Returns the new `current_box_data` and the action trace. -/
def sync_poll (fetch : Nat → BoxStatus) (current_box_data : BoxMap) :
    BoxMap × List MainAction :=
  let fresh_data := fetch_all_boxes fetch
  ((if fresh_data ≠ current_box_data then fresh_data else current_box_data),
   MainAction.fetchAll ::
     (if fresh_data ≠ current_box_data then [MainAction.logChanged] else []) ++
     [MainAction.render])

/-- The `on_box_update` closure registered in `main()`: fetch the one box,
patch the shared snapshot under the lock, refresh the display. -/
def on_box_update (fetch : Nat → BoxStatus) (box_number : Nat) (current : BoxMap) :
    BoxMap × List MainAction :=
  let new_data := fetch box_number
  (dictSet current box_number new_data, [MainAction.fetchBox box_number, MainAction.render])

/-- The per-tick mutable loop variables of `main()`. -/
structure LoopState where
  current_box_data : BoxMap
  current_qr_url : String
  last_connection_check : ℚ
  last_sync_poll : ℚ
  last_health_report : ℚ
  last_qr_slot : Int

/-- Per-tick inputs of the main loop: the two clocks and the outcomes of
the external calls the tick may make. -/
structure TickEnv where
  now_mono : ℚ
  now_unix : Int
  hasPusher : Bool
  connected : Bool
  connectResult : Bool
  fetch : Nat → BoxStatus

def CONNECTION_CHECK_INTERVAL : ℚ := 60

def SYNC_POLL_INTERVAL : ℚ := 300

/-- QR-rotation block of the tick loop. -/
def qr_step (cfg : QrConfig) (env : TickEnv) (st : LoopState) :
    LoopState × List MainAction :=
  let current_slot := Int.fdiv env.now_unix cfg.interval
  if current_slot ≠ st.last_qr_slot then
    ({ st with last_qr_slot := current_slot,
               current_qr_url := get_qr_url cfg env.now_unix },
     [MainAction.render])
  else (st, [])

/-- Connection-health block of the tick loop: on a due check with the
listener disconnected, attempt `connect()` (result unused) and run
`sync_poll()`, resetting the sync-poll timer. -/
def connection_step (env : TickEnv) (st : LoopState) : LoopState × List MainAction :=
  if env.hasPusher = true ∧ env.now_mono - st.last_connection_check ≥ CONNECTION_CHECK_INTERVAL then
    let st1 := { st with last_connection_check := env.now_mono }
    if env.connected = false then
      let r := sync_poll env.fetch st1.current_box_data
      ({ st1 with current_box_data := r.1, last_sync_poll := env.now_mono },
       MainAction.connectAttempt env.connectResult :: r.2)
    else (st1, [])
  else (st, [])

/-- Periodic-resync block of the tick loop. -/
def sync_step (env : TickEnv) (st : LoopState) : LoopState × List MainAction :=
  if env.now_mono - st.last_sync_poll ≥ SYNC_POLL_INTERVAL then
    let r := sync_poll env.fetch st.current_box_data
    ({ st with last_sync_poll := env.now_mono, current_box_data := r.1 }, r.2)
  else (st, [])

/-- Health-report block of the tick loop. -/
def health_step (env : TickEnv) (st : LoopState) : LoopState × List MainAction :=
  if env.now_mono - st.last_health_report ≥ CONNECTION_CHECK_INTERVAL then
    ({ st with last_health_report := env.now_mono },
     [MainAction.reportHealth (env.hasPusher && env.connected)])
  else (st, [])

/-- One whole iteration of the `while running` loop in `main()`: the four
independently timed blocks in source order, with their actions
concatenated. -/
def main_tick (cfg : QrConfig) (env : TickEnv) (st : LoopState) :
    LoopState × List MainAction :=
  let r1 := qr_step cfg env st
  let r2 := connection_step env r1.1
  let r3 := sync_step env r2.1
  let r4 := health_step env r3.1
  (r4.1, r1.2 ++ r2.2 ++ r3.2 ++ r4.2)

/-! ### Helper lemmas -/

/-- The lowercase hexadecimal alphabet. -/
def lowerHexDigits : List Char := "0123456789abcdef".data

/-- A string is lowercase hex when all its characters are hex digits. -/
def isLowerHex (s : String) : Bool := s.data.all (fun c => lowerHexDigits.contains c)

lemma sha256_length (msg : List Nat) : (sha256 msg).length = 32 := rfl

lemma hmacSha256_length (key msg : List Nat) : (hmacSha256 key msg).length = 32 :=
  sha256_length _

lemma hexChar_mem : ∀ n, n < 16 → lowerHexDigits.contains (hexChar n) = true := by decide

lemma byteHex_mem (b : Nat) (c : Char) (hc : c ∈ byteHex b) :
    lowerHexDigits.contains c = true := by
  rcases hc with _ | ⟨_, h⟩
  · exact hexChar_mem _ (Nat.mod_lt _ (by norm_num))
  · rcases h with _ | ⟨_, h⟩
    · exact hexChar_mem _ (Nat.mod_lt _ (by norm_num))
    · cases h

lemma isLowerHex_hexOfBytes (bytes : List Nat) : isLowerHex (hexOfBytes bytes) = true := by
  rw [isLowerHex, List.all_eq_true]
  intro c hc
  rcases List.mem_flatMap.mp hc with ⟨b, _, hcb⟩
  exact byteHex_mem b c hcb

lemma hexOfBytes_length (bytes : List Nat) : (hexOfBytes bytes).length = 2 * bytes.length := by
  show (bytes.flatMap byteHex).length = 2 * bytes.length
  induction bytes with
  | nil => rfl
  | cons b bs ih =>
      show (byteHex b ++ bs.flatMap byteHex).length = _
      simp [byteHex] at ih ⊢
      omega

lemma generate_token_eq_tokenForSlot (cfg : QrConfig) (t : Int) :
    generate_token cfg t = tokenForSlot cfg (Int.fdiv t cfg.interval) := rfl

lemma generate_token_length (cfg : QrConfig) (t : Int) :
    (generate_token cfg t).length = 64 := by
  show (hexOfBytes (hmacSha256 _ _)).length = 64
  rw [hexOfBytes_length, hmacSha256_length]

/-- Floor division is characterized by its bounds: if `s*I ≤ t < (s+1)*I`
with `I > 0` then `t.fdiv I = s` (i.e. `s = ⌊t/I⌋`). -/
lemma fdiv_eq_of_bounds {I s t : Int} (hI : 0 < I) (h1 : s * I ≤ t)
    (h2 : t < (s + 1) * I) : Int.fdiv t I = s := by
  have hid := Int.fdiv_add_fmod t I
  have hr0 := Int.fmod_nonneg' t hI
  have hrI := Int.fmod_lt_of_pos t hI
  rcases lt_trichotomy (Int.fdiv t I) s with h | h | h
  · exfalso
    have hq1 : Int.fdiv t I + 1 ≤ s := h
    have h4 : (Int.fdiv t I + 1) * I ≤ s * I := mul_le_mul_of_nonneg_right hq1 hI.le
    have e1 : (Int.fdiv t I + 1) * I = I * Int.fdiv t I + I := by ring
    linarith
  · exact h
  · exfalso
    have hq1 : s + 1 ≤ Int.fdiv t I := h
    have h4 : (s + 1) * I ≤ Int.fdiv t I * I := mul_le_mul_of_nonneg_right hq1 hI.le
    have e2 : Int.fdiv t I * I = I * Int.fdiv t I := by ring
    linarith

/-- Unfolding equation for `seconds_until_next_slot`. -/
lemma seconds_until_next_slot_def (cfg : QrConfig) (now : ℚ) :
    seconds_until_next_slot cfg now
      = (((Int.fdiv (pyInt now) cfg.interval + 1) * cfg.interval : Int) : ℚ) - now := rfl

/-! ### Claims -/

/-- C1: `generate_token(timestamp_seconds)` returns exactly the lowercase
hexadecimal HMAC-SHA256 digest, keyed by the UTF-8 bytes of the secret, of
the UTF-8 bytes of `deviceId` concatenated with the decimal string of
`timeSlot`, where `timeSlot = floor(timestamp / interval)` (characterized
by `s * I ≤ t < (s+1) * I`); the digest is lowercase hexadecimal of length
64, and the function is pure and deterministic. -/
theorem generate_token_spec (cfg : QrConfig) (t s : Int) (hI : 0 < cfg.interval)
    (hs1 : s * cfg.interval ≤ t) (hs2 : t < (s + 1) * cfg.interval) :
    generate_token cfg t
        = hexOfBytes (hmacSha256 (utf8Bytes cfg.secret)
            (utf8Bytes (cfg.deviceId ++ toString s)))
      ∧ isLowerHex (generate_token cfg t) = true
      ∧ (generate_token cfg t).length = 64
      ∧ generate_token cfg t = generate_token cfg t := by
  have hslot : Int.fdiv t cfg.interval = s := fdiv_eq_of_bounds hI hs1 hs2
  refine ⟨?_, ?_, generate_token_length cfg t, rfl⟩
  · rw [generate_token_eq_tokenForSlot, hslot]
    rfl
  · exact isLowerHex_hexOfBytes _

/-- Witness for C1 at the spec scenario: secret "abc", device "pvfll-002",
interval 30, timestamp 100, slot 3. -/
theorem generate_token_spec_witness :
    (0 : Int) < 30 ∧ (3 : Int) * 30 ≤ 100 ∧ (100 : Int) < (3 + 1) * 30 ∧
    generate_token ⟨"pvfll-002", "abc", 30⟩ 100
      = hexOfBytes (hmacSha256 (utf8Bytes "abc")
          (utf8Bytes ("pvfll-002" ++ toString (3 : Int)))) :=
  ⟨by decide, by decide, by decide,
   (generate_token_spec ⟨"pvfll-002", "abc", 30⟩ 100 3 (by decide) (by decide)
      (by decide)).1⟩

/-- C2 counterexample: with interval 30, timestamp 129 falls in slot 4
(`129 // 30 = 4`), not slot 3 as the claim states (slot 3 is the range
[90, 120)), and its token differs from the one at timestamp 100. -/
theorem slot_scenario_counterexample :
    Int.fdiv 129 30 = 4 ∧ Int.fdiv 129 30 ≠ 3
    ∧ generate_token ⟨"pvfll-002", "abc", 30⟩ 100
        ≠ generate_token ⟨"pvfll-002", "abc", 30⟩ 129 :=
  ⟨by decide, by decide, by decide⟩

/-- C2 (amended): timestamps in the same time slot yield identical tokens;
with interval 30, timestamps 100 and 119 both fall in slot 3 and yield the
same token, while timestamps 129 and 130 fall in slot 4 and yield the token
computed for slot 4. -/
theorem generate_token_slot_invariance :
    (∀ (cfg : QrConfig) (t1 t2 : Int),
        Int.fdiv t1 cfg.interval = Int.fdiv t2 cfg.interval →
        generate_token cfg t1 = generate_token cfg t2)
    ∧ Int.fdiv 100 30 = 3 ∧ Int.fdiv 119 30 = 3
    ∧ Int.fdiv 129 30 = 4 ∧ Int.fdiv 130 30 = 4
    ∧ generate_token ⟨"pvfll-002", "abc", 30⟩ 100
        = generate_token ⟨"pvfll-002", "abc", 30⟩ 119
    ∧ generate_token ⟨"pvfll-002", "abc", 30⟩ 129
        = tokenForSlot ⟨"pvfll-002", "abc", 30⟩ 4
    ∧ generate_token ⟨"pvfll-002", "abc", 30⟩ 130
        = tokenForSlot ⟨"pvfll-002", "abc", 30⟩ 4 := by
  refine ⟨?_, by decide, by decide, by decide, by decide, ?_, ?_, ?_⟩
  · intro cfg t1 t2 h
    rw [generate_token_eq_tokenForSlot, generate_token_eq_tokenForSlot, h]
  · rw [generate_token_eq_tokenForSlot, generate_token_eq_tokenForSlot]
    congr 1
  · rw [generate_token_eq_tokenForSlot]
    congr 1
  · rw [generate_token_eq_tokenForSlot]
    congr 1

/-- Witness for C2: timestamps 35 and 59 share slot 1 at interval 30. -/
theorem generate_token_slot_invariance_witness :
    generate_token ⟨"pvfll-002", "abc", 30⟩ 35
      = generate_token ⟨"pvfll-002", "abc", 30⟩ 59 :=
  generate_token_slot_invariance.1 ⟨"pvfll-002", "abc", 30⟩ 35 59 (by decide)

/-- C9 counterexample: at a slot boundary (`t = 0`, interval 30) the code
returns exactly 30 = I, which is not in the claimed half-open range
`[0, I)`. -/
theorem seconds_until_next_slot_at_boundary :
    seconds_until_next_slot ⟨"pvfll-002", "abc", 30⟩ 0 = 30
    ∧ ¬ (seconds_until_next_slot ⟨"pvfll-002", "abc", 30⟩ 0 < (30 : ℚ)) := by
  have h : seconds_until_next_slot ⟨"pvfll-002", "abc", 30⟩ 0 = 30 := by
    simp [seconds_until_next_slot, pyInt]
  exact ⟨h, by rw [h]; norm_num⟩

/-- C9 (amended): for nonnegative current time and interval `I > 0`,
`seconds_until_next_slot` lies in the half-open range `(0, I]` — it equals
`I` exactly at slot boundaries — and it is strictly decreasing as time
increases within one time slot. -/
theorem seconds_until_next_slot_range (cfg : QrConfig) (hI : 0 < cfg.interval) :
    (∀ t : ℚ, 0 ≤ t →
        0 < seconds_until_next_slot cfg t
        ∧ seconds_until_next_slot cfg t ≤ ((cfg.interval : Int) : ℚ))
    ∧ (∀ t1 t2 : ℚ, t1 < t2 →
        Int.fdiv (pyInt t1) cfg.interval = Int.fdiv (pyInt t2) cfg.interval →
        seconds_until_next_slot cfg t2 < seconds_until_next_slot cfg t1) := by
  constructor
  · intro t ht
    have hn : pyInt t = ⌊t⌋ := if_pos ht
    have hid := Int.fdiv_add_fmod (pyInt t) cfg.interval
    have hr0 := Int.fmod_nonneg' (pyInt t) hI
    have hrI := Int.fmod_lt_of_pos (pyInt t) hI
    have hfl : ((pyInt t : Int) : ℚ) ≤ t := by
      rw [hn]; exact_mod_cast Int.floor_le t
    have hfl2 : t < ((pyInt t : Int) : ℚ) + 1 := by
      rw [hn]; exact_mod_cast Int.lt_floor_add_one t
    rw [seconds_until_next_slot_def]
    have h1 : ((cfg.interval : Int) : ℚ) * (Int.fdiv (pyInt t) cfg.interval : ℚ)
        + (Int.fmod (pyInt t) cfg.interval : ℚ) = ((pyInt t : Int) : ℚ) := by
      exact_mod_cast congrArg (fun z : Int => (z : ℚ)) hid
    have h2 : (Int.fmod (pyInt t) cfg.interval : ℚ) + 1 ≤ ((cfg.interval : Int) : ℚ) := by
      exact_mod_cast hrI
    have h3 : (0 : ℚ) ≤ (Int.fmod (pyInt t) cfg.interval : ℚ) := by exact_mod_cast hr0
    have e : (((Int.fdiv (pyInt t) cfg.interval + 1) * cfg.interval : Int) : ℚ)
        = ((cfg.interval : Int) : ℚ) * (Int.fdiv (pyInt t) cfg.interval : ℚ)
          + ((cfg.interval : Int) : ℚ) := by
      push_cast
      ring
    constructor
    · linarith
    · linarith
  · intro t1 t2 hlt heq
    rw [seconds_until_next_slot_def, seconds_until_next_slot_def, heq]
    linarith

/-- Witness for the amended C9 at interval 30, time 10. -/
theorem seconds_until_next_slot_range_witness :
    0 < seconds_until_next_slot ⟨"pvfll-002", "abc", 30⟩ 10
    ∧ seconds_until_next_slot ⟨"pvfll-002", "abc", 30⟩ 10 ≤ (((30 : Int) : Int) : ℚ) :=
  (seconds_until_next_slot_range ⟨"pvfll-002", "abc", 30⟩ (by decide)).1 10 (by norm_num)

lemma fetchAttempts_ok_step (net : Nat → Except String RawResponse)
    (fileType : String → String) (delay i left : Nat) (d : RawResponse)
    (hnet : net i = .ok d) :
    fetchAttempts net fileType delay i (left + 1)
      = (some (processResponse fileType d), [.attempt i]) := by
  simp [fetchAttempts, hnet]

lemma fetchAttempts_last_step (net : Nat → Except String RawResponse)
    (fileType : String → String) (delay i : Nat) (e : String)
    (hnet : net i = .error e) :
    fetchAttempts net fileType delay i 1
      = (some { empty := true, name := none, ftype := none, error := some e },
         [.attempt i]) := by
  simp [fetchAttempts, hnet]

lemma fetchAttempts_error_step (net : Nat → Except String RawResponse)
    (fileType : String → String) (delay i left : Nat) (e : String)
    (hnet : net i = .error e) (hleft : left ≠ 0) :
    fetchAttempts net fileType delay i (left + 1)
      = ((fetchAttempts net fileType delay (i + 1) left).1,
         .attempt i :: .sleep delay :: (fetchAttempts net fileType delay (i + 1) left).2) := by
  simp [fetchAttempts, hnet, hleft]

lemma fetchAttempts_all_fail (net : Nat → Except String RawResponse)
    (fileType : String → String) (delay : Nat) :
    ∀ n i, 0 < n → (∀ k, k < n → ∃ e, net (i + k) = .error e) →
      ∃ m, fetchAttempts net fileType delay i n
            = (some { empty := true, name := none, ftype := none, error := some m },
               failTrace delay i n) := by
  intro n
  induction n with
  | zero => intro i h0; omega
  | succ m ih =>
    intro i _ hfail
    obtain ⟨e, he⟩ := hfail 0 (by omega)
    have he' : net i = .error e := by simpa using he
    cases m with
    | zero =>
      exact ⟨e, by rw [fetchAttempts_last_step net fileType delay i e he']; rfl⟩
    | succ m' =>
      obtain ⟨mm, hmm⟩ := ih (i + 1) (by omega)
        (fun k hk => by
          rw [show i + 1 + k = i + (k + 1) by omega]
          exact hfail (k + 1) (by omega))
      refine ⟨mm, ?_⟩
      rw [fetchAttempts_error_step net fileType delay i (m' + 1) e he' (Nat.succ_ne_zero m'),
          hmm]
      rfl

lemma fetchAttempts_attempt_count (net : Nat → Except String RawResponse)
    (fileType : String → String) (delay : Nat) :
    ∀ n i, ((fetchAttempts net fileType delay i n).2.countP isAttemptEv) ≤ n := by
  intro n
  induction n with
  | zero => intro i; simp [fetchAttempts]
  | succ m ih =>
    intro i
    cases hnet : net i with
    | ok d =>
      rw [fetchAttempts_ok_step net fileType delay i m d hnet]
      simp [isAttemptEv, List.countP_cons]
    | error e =>
      by_cases hm : m = 0
      · subst hm
        rw [fetchAttempts_last_step net fileType delay i e hnet]
        simp [isAttemptEv, List.countP_cons]
      · rw [fetchAttempts_error_step net fileType delay i m e hnet hm]
        have := ih (i + 1)
        simp [List.countP_cons, isAttemptEv]
        omega

lemma fetchAttempts_sleep_fixed (net : Nat → Except String RawResponse)
    (fileType : String → String) (delay : Nat) :
    ∀ n i d, FetchEv.sleep d ∈ (fetchAttempts net fileType delay i n).2 → d = delay := by
  intro n
  induction n with
  | zero => intro i d h; simp [fetchAttempts] at h
  | succ m ih =>
    intro i d h
    cases hnet : net i with
    | ok dd =>
      rw [fetchAttempts, hnet] at h
      simp at h
    | error e =>
      by_cases hm : m = 0
      · subst hm
        rw [fetchAttempts, hnet] at h
        simp at h
      · rw [fetchAttempts, hnet] at h
        simp only [hm, if_false, List.mem_cons] at h
        rcases h with h | h | h
        · cases h
        · cases h; rfl
        · exact ih (i + 1) d h

/-- C3: when every attempt fails at the transport level, `fetch_box_status`
does not raise: it returns the dictionary `{empty: true, error: m}` with a
message string `m`, after a trace of exactly the configured attempts with
the fixed delay between consecutive attempts; moreover for any transport
behaviour it performs at most `retries` attempts and every sleep has the
configured duration. -/
theorem fetch_box_status_spec (net : Nat → Except String RawResponse)
    (fileType : String → String) (retries delay : Nat)
    (hpos : 0 < retries) (hfail : ∀ k, k < retries → ∃ e, net k = .error e) :
    (∃ m, fetch_box_status net fileType retries delay
        = (some { empty := true, name := none, ftype := none, error := some m },
           failTrace delay 0 retries))
    ∧ (∀ net2 : Nat → Except String RawResponse,
        ((fetch_box_status net2 fileType retries delay).2.countP isAttemptEv) ≤ retries
        ∧ ∀ d, FetchEv.sleep d ∈ (fetch_box_status net2 fileType retries delay).2 →
            d = delay) := by
  constructor
  · exact fetchAttempts_all_fail net fileType delay retries 0 hpos
      (fun k hk => by simpa using hfail k hk)
  · intro net2
    exact ⟨fetchAttempts_attempt_count net2 fileType delay retries 0,
           fun d hd => fetchAttempts_sleep_fixed net2 fileType delay retries 0 d hd⟩

/-- Witness for C3: two attempts, both timing out, delay 3. -/
theorem fetch_box_status_spec_witness :
    ∃ m, fetch_box_status (fun _ => Except.error "timeout") (fun _ => "Unknown") 2 3
        = (some { empty := true, name := none, ftype := none, error := some m },
           failTrace 3 0 2) :=
  (fetch_box_status_spec (fun _ => Except.error "timeout") (fun _ => "Unknown") 2 3
    (by decide) (fun k _ => ⟨"timeout", rfl⟩)).1

lemma dictLookup_dictSet_ne (m : BoxMap) (k j : Nat) (v : BoxStatus) (h : j ≠ k) :
    dictLookup (dictSet m k v) j = dictLookup m j := by
  induction m with
  | nil => simp [dictSet, dictLookup, Ne.symm h]
  | cons p rest ih =>
    obtain ⟨k2, v2⟩ := p
    by_cases hk : k2 = k
    · subst hk
      simp [dictSet, dictLookup, Ne.symm h]
    · simp [dictSet, dictLookup, hk, ih]

/-- C5: `sync_poll` always renders after the fetch-all attempt — its action
trace is the fetch-all, then possibly the "data changed" log, then the
render — and the changed log is emitted exactly when the fresh data differs
from the current snapshot. -/
theorem sync_poll_always_renders (fetch : Nat → BoxStatus) (current : BoxMap) :
    (∃ mid, (sync_poll fetch current).2
          = MainAction.fetchAll :: (mid ++ [MainAction.render])
        ∧ (MainAction.logChanged ∈ mid ↔ fetch_all_boxes fetch ≠ current))
    ∧ MainAction.render ∈ (sync_poll fetch current).2 := by
  by_cases h : fetch_all_boxes fetch = current
  · exact ⟨⟨[], by simp [sync_poll, h], by simp [h]⟩, by simp [sync_poll, h]⟩
  · exact ⟨⟨[MainAction.logChanged], by simp [sync_poll, h], by simp [h]⟩,
      by simp [sync_poll, h]⟩

/-- C7: the push-driven update path patches only the targeted box id; every
other id's snapshot entry is unchanged. -/
theorem on_box_update_frame (fetch : Nat → BoxStatus) (box_number : Nat)
    (current : BoxMap) (j : Nat) (h : j ≠ box_number) :
    dictLookup (on_box_update fetch box_number current).1 j = dictLookup current j :=
  dictLookup_dictSet_ne current box_number j (fetch box_number) h

/-- Witness for C7: patching box 2 leaves box 1's entry unchanged. -/
theorem on_box_update_frame_witness :
    dictLookup (on_box_update (fun _ => ⟨true, none, none, none⟩) 2
        [(1, ⟨false, some "a.png", some "Image", none⟩),
         (2, ⟨true, none, none, none⟩)]).1 1
      = dictLookup
          [(1, ⟨false, some "a.png", some "Image", none⟩),
           (2, ⟨true, none, none, none⟩)] 1 :=
  on_box_update_frame (fun _ => ⟨true, none, none, none⟩) 2 _ 1 (by decide)

/-- C8: the listener never invokes a user callback before one is
registered: a listener constructed without a callback has the slot unset,
and with the slot unset the event handler performs no invocation on any
event, hence none on any sequence of events. -/
theorem no_callback_before_registration (α : Type) (l : PusherListener α)
    (hnone : l.on_box_update = none) :
    (PusherListener.init α none).on_box_update = none
    ∧ (∀ d, l.on_file_event d = none)
    ∧ (∀ events : List EventPayload, events.filterMap l.on_file_event = []) := by
  have hz : ∀ d, l.on_file_event d = none := by
    intro d
    cases d with
    | malformed => rfl
    | obj bn =>
      cases bn with
      | none => rfl
      | some v => simp [PusherListener.on_file_event, hnone]
  refine ⟨rfl, hz, ?_⟩
  intro events
  induction events with
  | nil => rfl
  | cons d ds ih => simp [List.filterMap_cons, hz d, ih]

/-- Witness for C8: an unregistered listener drops a well-formed event. -/
theorem no_callback_before_registration_witness :
    (PusherListener.init Nat none).on_file_event
      (EventPayload.obj (some (PyVal.pint 5))) = none :=
  (no_callback_before_registration Nat (PusherListener.init Nat none) rfl).2.1
    (EventPayload.obj (some (PyVal.pint 5)))

/-- C10: the handler invokes the registered callback only when the payload
parses, `boxNumber` is present and truthy: a malformed payload, a missing
field, any falsy value — in particular integer 0 — invokes nothing, while
the non-empty string "0" is truthy and invokes the callback with integer
0. -/
theorem box_number_truthiness_gate (α : Type) (l : PusherListener α) (cb : α)
    (hcb : l.on_box_update = some cb) :
    l.on_file_event EventPayload.malformed = none
    ∧ l.on_file_event (EventPayload.obj none) = none
    ∧ (∀ v, truthy v = false → l.on_file_event (EventPayload.obj (some v)) = none)
    ∧ l.on_file_event (EventPayload.obj (some (PyVal.pint 0))) = none
    ∧ l.on_file_event (EventPayload.obj (some (PyVal.pstr "0"))) = some (cb, 0) := by
  have ht0 : truthy (PyVal.pint 0) = false := by decide
  have ht1 : truthy (PyVal.pstr "0") = true := by decide
  have hp : pyIntOfString (pyStrip (pyStrOf (PyVal.pstr "0"))) = some 0 := by decide
  refine ⟨rfl, rfl, ?_, ?_, ?_⟩
  · intro v hv
    simp [PusherListener.on_file_event, hv]
  · simp [PusherListener.on_file_event, ht0]
  · simp [PusherListener.on_file_event, ht1, hcb, hp]

/-- Witness for C10: string "0" invokes the callback with integer 0. -/
theorem box_number_truthiness_gate_witness :
    (PusherListener.init Nat (some 7)).on_file_event
      (EventPayload.obj (some (PyVal.pstr "0"))) = some (7, 0) :=
  (box_number_truthiness_gate Nat (PusherListener.init Nat (some 7)) 7 rfl).2.2.2.2

/-- C4 counterexample: with `PUSHER_APP_KEY` unset, `connect()` does return
false, but the orchestration loop does not proceed: `boot_sequence` returns
the failure value and `main` halts in its idle wait instead of running with
periodic resync. -/
theorem pusher_nokey_claim_false :
    ((PusherListener.init Unit none).connect ⟨true, none, true⟩).1 = false
    ∧ boot_sequence ⟨true, ⟨true, none, true⟩, fun _ => ⟨true, none, none, none⟩⟩ = none
    ∧ main_boot_outcome ⟨true, ⟨true, none, true⟩, fun _ => ⟨true, none, none, none⟩⟩
        ≠ MainPhase.running := by
  refine ⟨rfl, rfl, ?_⟩
  intro h
  exact MainPhase.noConfusion h

/-- C4 (amended): with no push credentials configured, `connect()` returns
false immediately with the listener unchanged, and the boot sequence treats
this as fatal: it returns the failure value, so the main loop never starts
and halts in an idle wait (it does not crash, but no resync path runs). -/
theorem pusher_nokey_boot_halts (env : BootEnv) (l : PusherListener Unit)
    (hkey : env.pusher.appKey = none) :
    (l.connect env.pusher).1 = false
    ∧ (l.connect env.pusher).2 = l
    ∧ boot_sequence env = none
    ∧ main_boot_outcome env = MainPhase.haltedIdle := by
  have hfalsy : pyTruthyStrOpt env.pusher.appKey = false := by rw [hkey]; rfl
  have hc : ∀ l2 : PusherListener Unit, l2.connect env.pusher = (false, l2) := by
    intro l2
    simp [PusherListener.connect, hfalsy]
  have hb : boot_sequence env = none := by
    cases hdd : env.displayOk with
    | false => simp [boot_sequence, hdd]
    | true => simp [boot_sequence, hdd, hc]
  exact ⟨by rw [hc l], by rw [hc l], hb, by simp [main_boot_outcome, hb]⟩

/-- Witness for the amended C4. -/
theorem pusher_nokey_boot_halts_witness :
    ((PusherListener.init Unit none).connect
        (⟨true, ⟨true, none, true⟩, fun _ => ⟨true, none, none, none⟩⟩ : BootEnv).pusher).1
      = false
    ∧ main_boot_outcome ⟨true, ⟨true, none, true⟩, fun _ => ⟨true, none, none, none⟩⟩
        = MainPhase.haltedIdle :=
  ⟨(pusher_nokey_boot_halts ⟨true, ⟨true, none, true⟩, fun _ => ⟨true, none, none, none⟩⟩
      (PusherListener.init Unit none) rfl).1,
   (pusher_nokey_boot_halts ⟨true, ⟨true, none, true⟩, fun _ => ⟨true, none, none, none⟩⟩
      (PusherListener.init Unit none) rfl).2.2.2⟩

lemma qr_step_timers (cfg : QrConfig) (env : TickEnv) (st : LoopState) :
    (qr_step cfg env st).1.last_connection_check = st.last_connection_check
    ∧ (qr_step cfg env st).1.last_sync_poll = st.last_sync_poll
    ∧ (qr_step cfg env st).1.current_box_data = st.current_box_data := by
  simp only [qr_step]
  split <;> simp

lemma qr_step_count_fa (cfg : QrConfig) (env : TickEnv) (st : LoopState) :
    (qr_step cfg env st).2.count MainAction.fetchAll = 0 := by
  simp only [qr_step]
  split <;> simp

lemma health_step_count_fa (env : TickEnv) (st : LoopState) :
    (health_step env st).2.count MainAction.fetchAll = 0 := by
  simp only [health_step]
  split <;> simp

lemma connection_step_fire (env : TickEnv) (st : LoopState)
    (hp : env.hasPusher = true)
    (hdue : env.now_mono - st.last_connection_check ≥ CONNECTION_CHECK_INTERVAL)
    (hdisc : env.connected = false) :
    connection_step env st
      = ({ st with last_connection_check := env.now_mono,
                   current_box_data := (sync_poll env.fetch st.current_box_data).1,
                   last_sync_poll := env.now_mono },
         MainAction.connectAttempt env.connectResult
           :: (sync_poll env.fetch st.current_box_data).2) := by
  simp [connection_step, hp, hdue, hdisc]

lemma sync_step_noop (env : TickEnv) (st : LoopState)
    (h : st.last_sync_poll = env.now_mono) :
    sync_step env st = (st, []) := by
  have hcond : ¬ (env.now_mono - st.last_sync_poll ≥ SYNC_POLL_INTERVAL) := by
    rw [h]
    simp [SYNC_POLL_INTERVAL]
  simp [sync_step, hcond]

lemma main_tick_acts (cfg : QrConfig) (env : TickEnv) (st : LoopState) :
    (main_tick cfg env st).2
      = (qr_step cfg env st).2
        ++ (connection_step env (qr_step cfg env st).1).2
        ++ (sync_step env (connection_step env (qr_step cfg env st).1).1).2
        ++ (health_step env
              (sync_step env (connection_step env (qr_step cfg env st).1).1).1).2 := rfl

lemma sync_poll_acts (fetch : Nat → BoxStatus) (current : BoxMap) :
    (sync_poll fetch current).2
      = MainAction.fetchAll
          :: ((if fetch_all_boxes fetch ≠ current then [MainAction.logChanged] else [])
              ++ [MainAction.render]) := rfl

lemma sync_poll_count_fa (fetch : Nat → BoxStatus) (current : BoxMap) :
    (sync_poll fetch current).2.count MainAction.fetchAll = 1 := by
  rw [sync_poll_acts]
  split <;> simp

/-- C6: on a tick where the connection-health timer is due and the listener
reports disconnected, the loop attempts `connect()` and performs exactly one
full resync — exactly one fetch-all in the whole tick, followed by a render —
regardless of the reconnect outcome (`env.connectResult` is arbitrary). -/
theorem health_reconnect_one_resync (cfg : QrConfig) (env : TickEnv) (st : LoopState)
    (hp : env.hasPusher = true)
    (hdue : env.now_mono - st.last_connection_check ≥ CONNECTION_CHECK_INTERVAL)
    (hdisc : env.connected = false) :
    ((main_tick cfg env st).2.count MainAction.fetchAll = 1)
    ∧ (∃ l1 l2, (main_tick cfg env st).2 = l1 ++ MainAction.fetchAll :: l2
        ∧ MainAction.render ∈ l2)
    ∧ MainAction.connectAttempt env.connectResult ∈ (main_tick cfg env st).2 := by
  have hts : (qr_step cfg env st).1.last_connection_check = st.last_connection_check :=
    (qr_step_timers cfg env st).1
  have hc := connection_step_fire env (qr_step cfg env st).1 hp
    (by rw [hts]; exact hdue) hdisc
  have hs : sync_step env (connection_step env (qr_step cfg env st).1).1
      = ((connection_step env (qr_step cfg env st).1).1, []) := by
    apply sync_step_noop
    rw [hc]
  refine ⟨?_, ?_, ?_⟩
  · rw [main_tick_acts]
    simp only [List.count_append]
    rw [qr_step_count_fa, health_step_count_fa, hs, hc]
    simp [List.count_cons, sync_poll_count_fa]
  · refine ⟨(qr_step cfg env st).2 ++ [MainAction.connectAttempt env.connectResult],
      ((if fetch_all_boxes env.fetch
            ≠ (qr_step cfg env st).1.current_box_data then
          [MainAction.logChanged] else [])
        ++ [MainAction.render])
      ++ ((sync_step env (connection_step env (qr_step cfg env st).1).1).2
          ++ (health_step env
                (sync_step env (connection_step env (qr_step cfg env st).1).1).1).2),
      ?_, ?_⟩
    · rw [main_tick_acts, hs, hc, sync_poll_acts]
      simp
    · simp
  · rw [main_tick_acts, hc]
    simp

/-- Witness for C6: a concrete due, disconnected tick performs one
fetch-all. -/
theorem health_reconnect_one_resync_witness :
    ((main_tick ⟨"pvfll-002", "abc", 30⟩
        ⟨100, 100, true, false, false, fun _ => ⟨true, none, none, none⟩⟩
        ⟨[], "", 0, 0, 0, 3⟩).2.count MainAction.fetchAll = 1) :=
  (health_reconnect_one_resync ⟨"pvfll-002", "abc", 30⟩
      ⟨100, 100, true, false, false, fun _ => ⟨true, none, none, none⟩⟩
      ⟨[], "", 0, 0, 0, 3⟩ rfl (by norm_num [CONNECTION_CHECK_INTERVAL]) rfl).1

end PVFLL
